import Mathlib

/-!
Verification of the Govardovskii (2000) visual-pigment template evaluator.

The source program is a pure numeric script: `govardovskii_template` maps a
wavelength array, a peak wavelength `lambda_max` and an A1-chromophore
percentage to a normalized sensitivity curve, and `plot_visual_pigments`
iterates the evaluator over (lambda_max, proportion) pairs.  We embed the
numeric core over the real numbers: each numpy elementwise operation becomes
a scalar function mapped over a `List ℝ`, `np.max` becomes a fold with `max`,
and normalization is elementwise real division.  Real division is total in
Lean (`x / 0 = 0`), which stands in for the warn-and-continue behaviour of numpy
at a zero maximum.
-/

namespace Govardovskii

noncomputable section

/-- A1 shape parameter: `a1 = 0.8795 + 0.0459*exp(-((lambda_max-300)**2)/11940)`. -/
def a1 (lambda_max : ℝ) : ℝ :=
  0.8795 + 0.0459 * Real.exp (-(lambda_max - 300) ^ 2 / 11940)

/-- Beta-band peak position for the A1 template: `189 + 0.315*lambda_max`. -/
def lambda_beta_A1 (lambda_max : ℝ) : ℝ := 189 + 0.315 * lambda_max

/-- Beta-band bandwidth for the A1 template: `-40.5 + 0.195*lambda_max`. -/
def beta_bandwidth_A1 (lambda_max : ℝ) : ℝ := -40.5 + 0.195 * lambda_max

/-- A1 alpha band at one wavelength; `x = lambda_max / w` is inlined exactly as
the code computes it elementwise. -/
def alpha_A1 (lambda_max w : ℝ) : ℝ :=
  1 / (Real.exp (69.7 * (a1 lambda_max - lambda_max / w)) +
       Real.exp (28 * (0.922 - lambda_max / w)) +
       Real.exp (-14.9 * (1.104 - lambda_max / w)) + 0.674)

/-- A1 beta band at one wavelength: a Gaussian in wavelength, not in `x`. -/
def beta_A1 (lambda_max w : ℝ) : ℝ :=
  0.26 * Real.exp (-((w - lambda_beta_A1 lambda_max) / beta_bandwidth_A1 lambda_max) ^ 2)

/-- A1 sensitivity: `sensitivity_A1 = alpha_A1 + beta_A1`. -/
def sensitivity_A1 (lambda_max w : ℝ) : ℝ := alpha_A1 lambda_max w + beta_A1 lambda_max w

/-- A2 shape parameter: `0.875 + 0.0268*exp((lambda_max-665)/40.7)`. -/
def a2 (lambda_max : ℝ) : ℝ := 0.875 + 0.0268 * Real.exp ((lambda_max - 665) / 40.7)

/-- A2 peak-amplitude factor: `62.7 + 1.834*exp((lambda_max-625)/54.2)`. -/
def A2_peak (lambda_max : ℝ) : ℝ := 62.7 + 1.834 * Real.exp ((lambda_max - 625) / 54.2)

/-- Beta-band peak position for the A2 template: `216.7 + 0.287*lambda_max`. -/
def lambda_beta_A2 (lambda_max : ℝ) : ℝ := 216.7 + 0.287 * lambda_max

/-- Beta-band bandwidth for the A2 template:
`317 - 1.149*lambda_max + 0.00124*lambda_max**2`. -/
def beta_bandwidth_A2 (lambda_max : ℝ) : ℝ :=
  317 - 1.149 * lambda_max + 0.00124 * lambda_max ^ 2

/-- A2 alpha band at one wavelength. -/
def alpha_A2 (lambda_max w : ℝ) : ℝ :=
  1 / (Real.exp (A2_peak lambda_max * (a2 lambda_max - lambda_max / w)) +
       Real.exp (20.85 * (0.9101 - lambda_max / w)) +
       Real.exp (-10.37 * (1.1123 - lambda_max / w)) + 0.5343)

/-- A2 beta band at one wavelength. -/
def beta_A2 (lambda_max w : ℝ) : ℝ :=
  0.26 * Real.exp (-((w - lambda_beta_A2 lambda_max) / beta_bandwidth_A2 lambda_max) ^ 2)

/-- A2 sensitivity: `sensitivity_A2 = alpha_A2 + beta_A2`. -/
def sensitivity_A2 (lambda_max w : ℝ) : ℝ := alpha_A2 lambda_max w + beta_A2 lambda_max w

/-- Combined sensitivity at one wavelength:
`(A1_proportion/100)*sensitivity_A1 + (1 - A1_proportion/100)*sensitivity_A2`. -/
def total_sensitivity (lambda_max A1_proportion w : ℝ) : ℝ :=
  (A1_proportion / 100) * sensitivity_A1 lambda_max w +
    (1 - A1_proportion / 100) * sensitivity_A2 lambda_max w

/-- `np.max` over a 1-D array, as a fold with `max`.  numpy raises on an empty
array; the embedding returns the junk value 0 there (no claim relies on it). -/
def npMax : List ℝ → ℝ
  | [] => 0
  | x :: xs => xs.foldl max x

/-- The normalization step of the source: divide every element by the maximum.
Real division is total, so a zero maximum yields junk values instead of
the non-finite values of numpy; in both semantics no error is raised. -/
def normalize (l : List ℝ) : List ℝ := l.map (fun t => t / npMax l)

/-- The template evaluator: returns the (unmodified) wavelengths and the
normalized combined sensitivity curve. -/
def govardovskii_template (wavelengths : List ℝ) (lambda_max : ℝ)
    (A1_proportion : ℝ) : List ℝ × List ℝ :=
  (wavelengths, normalize (wavelengths.map (total_sensitivity lambda_max A1_proportion)))

/-- `np.linspace lo hi n`: n evenly spaced samples from lo to hi. -/
def linspace (lo hi : ℝ) (n : ℕ) : List ℝ :=
  (List.range n).map (fun i => lo + (hi - lo) * i / ((n : ℝ) - 1))

/-- The data content of the plot renderer: the list of curves drawn, one per
pair produced by `zip(lambda_maxs, A1_proportions)`; a missing proportion list
defaults to all-100.  The matplotlib canvas itself is outside the embedding. -/
def plot_visual_pigments (wavelength_range : ℝ × ℝ) (lambda_maxs : List ℝ)
    (A1_proportions : Option (List ℝ)) : List (List ℝ) :=
  (lambda_maxs.zip (A1_proportions.getD (List.replicate lambda_maxs.length 100))).map
    (fun q => (govardovskii_template
      (linspace wavelength_range.1 wavelength_range.2 1000) q.1 q.2).2)

/-! ### Spec-side restatement of the A1 branch (for the refinement claim C3)

These definitions follow the wording of the specification, section 4.1,
independently of the code-side definitions above. -/

/-- Spec formula `a1 = 0.8795 + 0.0459*exp(-(lambda_max-300)^2/11940)`. -/
def specA1Shape (lambda_max : ℝ) : ℝ :=
  0.8795 + 0.0459 * Real.exp (-(lambda_max - 300) ^ 2 / 11940)

/-- Spec formula for the A1 beta-band position `189 + 0.315*lambda_max`. -/
def specLambdaBetaA1 (lambda_max : ℝ) : ℝ := 189 + 0.315 * lambda_max

/-- Spec formula for the A1 beta-band bandwidth `-40.5 + 0.195*lambda_max`. -/
def specBetaBandwidthA1 (lambda_max : ℝ) : ℝ := -40.5 + 0.195 * lambda_max

/-- Spec alpha band: with `x = lambda_max/w`,
`1 / (exp(69.7(a1-x)) + exp(28(0.922-x)) + exp(-14.9(1.104-x)) + 0.674)`. -/
def specAlphaBandA1 (lambda_max w : ℝ) : ℝ :=
  let x := lambda_max / w
  1 / (Real.exp (69.7 * (specA1Shape lambda_max - x)) +
       Real.exp (28 * (0.922 - x)) +
       Real.exp (-14.9 * (1.104 - x)) + 0.674)

/-- Spec beta band: a Gaussian in wavelength,
`0.26*exp(-((w-lambda_beta)/beta_bandwidth)^2)`. -/
def specBetaBandA1 (lambda_max w : ℝ) : ℝ :=
  0.26 * Real.exp (-((w - specLambdaBetaA1 lambda_max) /
    specBetaBandwidthA1 lambda_max) ^ 2)

/-- Spec A1 sensitivity: `S1 = alpha + beta`. -/
def specS1 (lambda_max w : ℝ) : ℝ :=
  specAlphaBandA1 lambda_max w + specBetaBandA1 lambda_max w

end

/-! ### Basic facts about the embedding -/

lemma alpha_A1_pos (lambda_max w : ℝ) : 0 < alpha_A1 lambda_max w := by
  unfold alpha_A1
  positivity

lemma beta_A1_pos (lambda_max w : ℝ) : 0 < beta_A1 lambda_max w := by
  unfold beta_A1
  positivity

lemma sensitivity_A1_pos (lambda_max w : ℝ) : 0 < sensitivity_A1 lambda_max w :=
  add_pos (alpha_A1_pos lambda_max w) (beta_A1_pos lambda_max w)

lemma alpha_A2_pos (lambda_max w : ℝ) : 0 < alpha_A2 lambda_max w := by
  unfold alpha_A2
  positivity

lemma beta_A2_pos (lambda_max w : ℝ) : 0 < beta_A2 lambda_max w := by
  unfold beta_A2
  positivity

lemma sensitivity_A2_pos (lambda_max w : ℝ) : 0 < sensitivity_A2 lambda_max w :=
  add_pos (alpha_A2_pos lambda_max w) (beta_A2_pos lambda_max w)

lemma total_at_100 (lambda_max w : ℝ) :
    total_sensitivity lambda_max 100 w = sensitivity_A1 lambda_max w := by
  unfold total_sensitivity
  norm_num

lemma total_at_0 (lambda_max w : ℝ) :
    total_sensitivity lambda_max 0 w = sensitivity_A2 lambda_max w := by
  unfold total_sensitivity
  norm_num

lemma total_at_50 (lambda_max w : ℝ) :
    total_sensitivity lambda_max 50 w =
      (1 / 2) * sensitivity_A1 lambda_max w + (1 / 2) * sensitivity_A2 lambda_max w := by
  unfold total_sensitivity
  norm_num

lemma total_sensitivity_50_pos (lambda_max w : ℝ) :
    0 < total_sensitivity lambda_max 50 w := by
  rw [total_at_50]
  have h1 := sensitivity_A1_pos lambda_max w
  have h2 := sensitivity_A2_pos lambda_max w
  linarith

@[simp] lemma npMax_singleton (a : ℝ) : npMax [a] = a := rfl

@[simp] lemma npMax_cons (a b : ℝ) (l : List ℝ) :
    npMax (a :: b :: l) = npMax (max a b :: l) := rfl

lemma le_foldl_max (l : List ℝ) : ∀ a b : ℝ, a ≤ b → a ≤ l.foldl max b := by
  induction l with
  | nil => intro a b h; simpa using h
  | cons c t ih =>
    intro a b h
    exact ih a (max b c) (le_trans h (le_max_left b c))

lemma mem_le_foldl_max (l : List ℝ) : ∀ b y : ℝ, y ∈ l → y ≤ l.foldl max b := by
  induction l with
  | nil => intro b y h; simp at h
  | cons c t ih =>
    intro b y hy
    rcases List.mem_cons.mp hy with h | h
    · subst h
      exact le_foldl_max t y (max b y) (le_max_right b y)
    · exact ih (max b c) y h

lemma mem_le_npMax {l : List ℝ} {y : ℝ} (h : y ∈ l) : y ≤ npMax l := by
  cases l with
  | nil => simp at h
  | cons x xs =>
    rcases List.mem_cons.mp h with h | h
    · subst h
      exact le_foldl_max xs y y le_rfl
    · exact mem_le_foldl_max xs x y h

lemma head_le_npMax (x : ℝ) (xs : List ℝ) : x ≤ npMax (x :: xs) :=
  le_foldl_max xs x x le_rfl

lemma foldl_max_div (l : List ℝ) (m : ℝ) (hm : 0 ≤ m) :
    ∀ b : ℝ, (l.map (fun t => t / m)).foldl max (b / m) = l.foldl max b / m := by
  induction l with
  | nil => intro b; rfl
  | cons c t ih =>
    intro b
    simp only [List.map, List.foldl]
    rw [max_div_div_right hm, ih]

lemma npMax_normalize {l : List ℝ} (h : 0 < npMax l) : npMax (normalize l) = 1 := by
  cases l with
  | nil => simp [npMax] at h
  | cons x xs =>
    unfold normalize
    have hx : npMax ((x :: xs).map (fun t => t / npMax (x :: xs))) =
        npMax (x :: xs) / npMax (x :: xs) := by
      show (xs.map (fun t => t / npMax (x :: xs))).foldl max (x / npMax (x :: xs)) = _
      exact foldl_max_div xs (npMax (x :: xs)) h.le x
    rw [hx, div_self h.ne.symm]

lemma normalize_le_one {l : List ℝ} (h : 0 < npMax l) :
    ∀ y ∈ normalize l, y ≤ 1 := by
  intro y hy
  unfold normalize at hy
  rcases List.mem_map.mp hy with ⟨t, ht, rfl⟩
  exact (div_le_one h).mpr (mem_le_npMax ht)

lemma template_singleton (lambda_max p w : ℝ) (h : total_sensitivity lambda_max p w ≠ 0) :
    govardovskii_template [w] lambda_max p = ([w], [1]) := by
  unfold govardovskii_template normalize
  simp [div_self h]

lemma template_pair (lambda_max p w1 w2 : ℝ) :
    (govardovskii_template [w1, w2] lambda_max p).2 =
      [total_sensitivity lambda_max p w1 /
         max (total_sensitivity lambda_max p w1) (total_sensitivity lambda_max p w2),
       total_sensitivity lambda_max p w2 /
         max (total_sensitivity lambda_max p w1) (total_sensitivity lambda_max p w2)] := by
  unfold govardovskii_template normalize
  simp [npMax]

lemma template_triple (lambda_max p w1 w2 w3 : ℝ) :
    (govardovskii_template [w1, w2, w3] lambda_max p).2 =
      [total_sensitivity lambda_max p w1 /
         max (max (total_sensitivity lambda_max p w1) (total_sensitivity lambda_max p w2))
           (total_sensitivity lambda_max p w3),
       total_sensitivity lambda_max p w2 /
         max (max (total_sensitivity lambda_max p w1) (total_sensitivity lambda_max p w2))
           (total_sensitivity lambda_max p w3),
       total_sensitivity lambda_max p w3 /
         max (max (total_sensitivity lambda_max p w1) (total_sensitivity lambda_max p w2))
           (total_sensitivity lambda_max p w3)] := by
  unfold govardovskii_template normalize
  simp [npMax]

/-! ### Elementary bounds on the real exponential -/

lemma one_add_le_exp (x : ℝ) : 1 + x ≤ Real.exp x := by
  have h := Real.add_one_le_exp x
  linarith

lemma exp_le_one_div {x : ℝ} (h : x < 1) : Real.exp x ≤ 1 / (1 - x) := by
  have h1 : 1 - x ≤ Real.exp (-x) := by
    have := Real.add_one_le_exp (-x)
    linarith
  have h2 : 0 < 1 - x := by linarith
  have h3 : (1 - x) * Real.exp x ≤ Real.exp (-x) * Real.exp x :=
    mul_le_mul_of_nonneg_right h1 (Real.exp_pos x).le
  rw [← Real.exp_add, neg_add_cancel, Real.exp_zero] at h3
  rw [le_div_iff₀ h2]
  nlinarith

lemma exp_nonpos_le_one {x : ℝ} (h : x ≤ 0) : Real.exp x ≤ 1 := by
  calc Real.exp x ≤ Real.exp 0 := Real.exp_le_exp.mpr h
    _ = 1 := Real.exp_zero

lemma exp_eq_quarter_pow (x : ℝ) : Real.exp x = Real.exp (x / 4) ^ 4 := by
  rw [← Real.exp_nat_mul]
  norm_num
  ring

lemma quartic_le_exp {x : ℝ} (h : -4 ≤ x) : (1 + x / 4) ^ 4 ≤ Real.exp x := by
  have h1 : (0 : ℝ) ≤ 1 + x / 4 := by linarith
  have h2 : 1 + x / 4 ≤ Real.exp (x / 4) := one_add_le_exp (x / 4)
  calc (1 + x / 4) ^ 4 ≤ Real.exp (x / 4) ^ 4 := pow_le_pow_left₀ h1 h2 4
    _ = Real.exp x := (exp_eq_quarter_pow x).symm

lemma exp_le_quartic {x : ℝ} (h : x < 4) : Real.exp x ≤ (1 / (1 - x / 4)) ^ 4 := by
  have h1 : Real.exp (x / 4) ≤ 1 / (1 - x / 4) := exp_le_one_div (by linarith)
  calc Real.exp x = Real.exp (x / 4) ^ 4 := exp_eq_quarter_pow x
    _ ≤ (1 / (1 - x / 4)) ^ 4 := pow_le_pow_left₀ (Real.exp_pos _).le h1 4

lemma exp_two_lb : (7.389056 : ℝ) ≤ Real.exp 2 := by
  have h2 : Real.exp 2 = Real.exp 1 * Real.exp 1 := by
    rw [← Real.exp_add]
    norm_num
  nlinarith [Real.exp_one_gt_d9]

lemma exp_two_ub : Real.exp 2 ≤ 7.3890561 := by
  have h2 : Real.exp 2 = Real.exp 1 * Real.exp 1 := by
    rw [← Real.exp_add]
    norm_num
  nlinarith [Real.exp_one_lt_d9, Real.exp_pos 1]

lemma exp_three_lb : (20.085536 : ℝ) ≤ Real.exp 3 := by
  have h3 : Real.exp 3 = Real.exp 2 * Real.exp 1 := by
    rw [← Real.exp_add]
    norm_num
  nlinarith [exp_two_lb, Real.exp_one_gt_d9, Real.exp_pos 2]

lemma exp_three_ub : Real.exp 3 ≤ 20.085538 := by
  have h3 : Real.exp 3 = Real.exp 2 * Real.exp 1 := by
    rw [← Real.exp_add]
    norm_num
  nlinarith [exp_two_ub, Real.exp_one_lt_d9, Real.exp_pos 2, Real.exp_pos 1, exp_two_lb,
    Real.exp_one_gt_d9]

lemma exp_four_lb : (54.598148 : ℝ) ≤ Real.exp 4 := by
  have h4 : Real.exp 4 = Real.exp 2 * Real.exp 2 := by
    rw [← Real.exp_add]
    norm_num
  nlinarith [exp_two_lb, Real.exp_pos 2]

lemma exp_six_lb : (403.4287 : ℝ) ≤ Real.exp 6 := by
  have h6 : Real.exp 6 = Real.exp 4 * Real.exp 2 := by
    rw [← Real.exp_add]
    norm_num
  nlinarith [exp_four_lb, exp_two_lb, Real.exp_pos 4, Real.exp_pos 2]

/-! ### Bounds on the template shape parameters -/

lemma a1_bounds (lambda_max : ℝ) (h : lambda_max ≠ 300) :
    0.8795 < a1 lambda_max ∧ a1 lambda_max < 0.9254 := by
  unfold a1
  have h0 : lambda_max - 300 ≠ 0 := sub_ne_zero.mpr h
  have hsq : 0 < (lambda_max - 300) ^ 2 := pow_two_pos_of_ne_zero h0
  have h1 : 0 < Real.exp (-(lambda_max - 300) ^ 2 / 11940) := Real.exp_pos _
  have h2 : Real.exp (-(lambda_max - 300) ^ 2 / 11940) < 1 := by
    rw [Real.exp_lt_one_iff]
    nlinarith
  constructor <;> nlinarith

lemma a2_500_bounds : 0.875 < a2 500 ∧ a2 500 < 0.9018 := by
  unfold a2
  have h1 : 0 < Real.exp (((500 : ℝ) - 665) / 40.7) := Real.exp_pos _
  have h2 : Real.exp (((500 : ℝ) - 665) / 40.7) < 1 := by
    rw [Real.exp_lt_one_iff]
    norm_num
  constructor <;> nlinarith

lemma A2_peak_500_bounds : 62.7 < A2_peak 500 ∧ A2_peak 500 < 64.534 := by
  unfold A2_peak
  have h1 : 0 < Real.exp (((500 : ℝ) - 625) / 54.2) := Real.exp_pos _
  have h2 : Real.exp (((500 : ℝ) - 625) / 54.2) < 1 := by
    rw [Real.exp_lt_one_iff]
    norm_num
  constructor <;> nlinarith

/-! ### Generic one-sided bounds for the band functions -/

lemma alpha_A1_le_third (lambda_max w c : ℝ)
    (h : c ≤ Real.exp (-14.9 * (1.104 - lambda_max / w))) (hc : 0 < c) :
    alpha_A1 lambda_max w ≤ 1 / (c + 0.674) := by
  unfold alpha_A1
  apply one_div_le_one_div_of_le (by linarith)
  have h1 := Real.exp_pos (69.7 * (a1 lambda_max - lambda_max / w))
  have h2 := Real.exp_pos (28 * (0.922 - lambda_max / w))
  linarith

lemma alpha_A1_le_first (lambda_max w c : ℝ)
    (h : c ≤ Real.exp (69.7 * (a1 lambda_max - lambda_max / w))) (hc : 0 < c) :
    alpha_A1 lambda_max w ≤ 1 / (c + 0.674) := by
  unfold alpha_A1
  apply one_div_le_one_div_of_le (by linarith)
  have h2 := Real.exp_pos (28 * (0.922 - lambda_max / w))
  have h3 := Real.exp_pos (-14.9 * (1.104 - lambda_max / w))
  linarith

lemma alpha_A1_ge (lambda_max w c1 c2 c3 : ℝ)
    (h1 : Real.exp (69.7 * (a1 lambda_max - lambda_max / w)) ≤ c1)
    (h2 : Real.exp (28 * (0.922 - lambda_max / w)) ≤ c2)
    (h3 : Real.exp (-14.9 * (1.104 - lambda_max / w)) ≤ c3) :
    1 / (c1 + c2 + c3 + 0.674) ≤ alpha_A1 lambda_max w := by
  unfold alpha_A1
  apply one_div_le_one_div_of_le
  · positivity
  · linarith

lemma beta_A1_le (lambda_max w c : ℝ)
    (h : Real.exp (-((w - lambda_beta_A1 lambda_max) / beta_bandwidth_A1 lambda_max) ^ 2) ≤ c) :
    beta_A1 lambda_max w ≤ 0.26 * c := by
  unfold beta_A1
  linarith

lemma beta_A1_ge (lambda_max w c : ℝ)
    (h : c ≤ Real.exp (-((w - lambda_beta_A1 lambda_max) / beta_bandwidth_A1 lambda_max) ^ 2)) :
    0.26 * c ≤ beta_A1 lambda_max w := by
  unfold beta_A1
  linarith

lemma beta_A1_le_coeff (lambda_max w : ℝ) : beta_A1 lambda_max w ≤ 0.26 := by
  have h := beta_A1_le lambda_max w 1 (exp_nonpos_le_one (neg_nonpos.mpr (sq_nonneg _)))
  linarith

lemma alpha_A2_le_third (lambda_max w c : ℝ)
    (h : c ≤ Real.exp (-10.37 * (1.1123 - lambda_max / w))) (hc : 0 < c) :
    alpha_A2 lambda_max w ≤ 1 / (c + 0.5343) := by
  unfold alpha_A2
  apply one_div_le_one_div_of_le (by linarith)
  have h1 := Real.exp_pos (A2_peak lambda_max * (a2 lambda_max - lambda_max / w))
  have h2 := Real.exp_pos (20.85 * (0.9101 - lambda_max / w))
  linarith

lemma alpha_A2_ge (lambda_max w c1 c2 c3 : ℝ)
    (h1 : Real.exp (A2_peak lambda_max * (a2 lambda_max - lambda_max / w)) ≤ c1)
    (h2 : Real.exp (20.85 * (0.9101 - lambda_max / w)) ≤ c2)
    (h3 : Real.exp (-10.37 * (1.1123 - lambda_max / w)) ≤ c3) :
    1 / (c1 + c2 + c3 + 0.5343) ≤ alpha_A2 lambda_max w := by
  unfold alpha_A2
  apply one_div_le_one_div_of_le
  · positivity
  · linarith

lemma beta_A2_le (lambda_max w c : ℝ)
    (h : Real.exp (-((w - lambda_beta_A2 lambda_max) / beta_bandwidth_A2 lambda_max) ^ 2) ≤ c) :
    beta_A2 lambda_max w ≤ 0.26 * c := by
  unfold beta_A2
  linarith

lemma beta_A2_ge (lambda_max w c : ℝ)
    (h : c ≤ Real.exp (-((w - lambda_beta_A2 lambda_max) / beta_bandwidth_A2 lambda_max) ^ 2)) :
    0.26 * c ≤ beta_A2 lambda_max w := by
  unfold beta_A2
  linarith

/-! ### Interval bounds on the sensitivities at the concrete points used below -/

lemma S1_500_330_lb : (0.238 : ℝ) ≤ sensitivity_A1 500 330 := by
  have ha := alpha_A1_pos 500 330
  have hargb : ((330 : ℝ) - lambda_beta_A1 500) / beta_bandwidth_A1 500 = -16.5 / 57 := by
    unfold lambda_beta_A1 beta_bandwidth_A1
    norm_num
  have hexp : (1 : ℝ) + -((-16.5 / 57 : ℝ)) ^ 2 ≤
      Real.exp (-(((330 : ℝ) - lambda_beta_A1 500) / beta_bandwidth_A1 500) ^ 2) := by
    rw [hargb]
    exact one_add_le_exp _
  have hbeta := beta_A1_ge 500 330 _ hexp
  unfold sensitivity_A1
  have hval : (0.238 : ℝ) ≤ 0.26 * ((1 : ℝ) + -((-16.5 / 57 : ℝ)) ^ 2) := by norm_num
  linarith

lemma S1_500_330_ub : sensitivity_A1 500 330 ≤ 0.263 := by
  have hsplit : Real.exp (6.126 : ℝ) = Real.exp 6 * Real.exp 0.126 := by
    rw [← Real.exp_add]
    norm_num
  have h126 : (1.126 : ℝ) ≤ Real.exp (0.126 : ℝ) := by
    have := one_add_le_exp (0.126 : ℝ)
    linarith
  have h6126 : (454.2 : ℝ) ≤ Real.exp (6.126 : ℝ) := by
    rw [hsplit]
    nlinarith [exp_six_lb, h126, Real.exp_pos 6]
  have hmono : Real.exp (6.126 : ℝ) ≤ Real.exp (-14.9 * (1.104 - (500 : ℝ) / 330)) :=
    Real.exp_le_exp.mpr (by norm_num)
  have halpha := alpha_A1_le_third 500 330 454.2 (le_trans h6126 hmono) (by norm_num)
  have hbeta := beta_A1_le_coeff 500 330
  unfold sensitivity_A1
  have hval : (1 : ℝ) / (454.2 + 0.674) ≤ 0.0022 := by norm_num
  linarith

lemma S1_500_390_lb : (0.202 : ℝ) ≤ sensitivity_A1 500 390 := by
  have ha1 := (a1_bounds 500 (by norm_num)).2
  have hc1 : Real.exp (69.7 * (a1 500 - (500 : ℝ) / 390)) ≤ 0.0387 := by
    calc Real.exp (69.7 * (a1 500 - (500 : ℝ) / 390)) ≤ Real.exp (-24.85) :=
          Real.exp_le_exp.mpr (by nlinarith)
      _ ≤ 1 / (1 - (-24.85)) := exp_le_one_div (by norm_num)
      _ ≤ 0.0387 := by norm_num
  have hc2 : Real.exp (28 * (0.922 - (500 : ℝ) / 390)) ≤ 0.0903 := by
    calc Real.exp (28 * (0.922 - (500 : ℝ) / 390)) ≤ Real.exp (-10.08) :=
          Real.exp_le_exp.mpr (by norm_num)
      _ ≤ 1 / (1 - (-10.08)) := exp_le_one_div (by norm_num)
      _ ≤ 0.0903 := by norm_num
  have hsplit : Real.exp (2.653 : ℝ) = Real.exp 3 * Real.exp (-0.347) := by
    rw [← Real.exp_add]
    norm_num
  have hneg : Real.exp (-0.347 : ℝ) ≤ 1 / 1.347 := by
    calc Real.exp (-0.347 : ℝ) ≤ 1 / (1 - (-0.347)) := exp_le_one_div (by norm_num)
      _ ≤ 1 / 1.347 := by norm_num
  have h2653 : Real.exp (2.653 : ℝ) ≤ 14.92 := by
    rw [hsplit]
    nlinarith [exp_three_ub, hneg, Real.exp_pos 3, Real.exp_pos (-0.347 : ℝ), exp_three_lb]
  have hc3 : Real.exp (-14.9 * (1.104 - (500 : ℝ) / 390)) ≤ 14.92 := by
    calc Real.exp (-14.9 * (1.104 - (500 : ℝ) / 390)) ≤ Real.exp (2.653 : ℝ) :=
          Real.exp_le_exp.mpr (by norm_num)
      _ ≤ 14.92 := h2653
  have halpha := alpha_A1_ge 500 390 0.0387 0.0903 14.92 hc1 hc2 hc3
  have hargb : ((390 : ℝ) - lambda_beta_A1 500) / beta_bandwidth_A1 500 = 43.5 / 57 := by
    unfold lambda_beta_A1 beta_bandwidth_A1
    norm_num
  have hexp : ((1 : ℝ) + -((43.5 / 57 : ℝ)) ^ 2 / 4) ^ 4 ≤
      Real.exp (-(((390 : ℝ) - lambda_beta_A1 500) / beta_bandwidth_A1 500) ^ 2) := by
    rw [hargb]
    exact quartic_le_exp (by norm_num)
  have hbeta := beta_A1_ge 500 390 _ hexp
  unfold sensitivity_A1
  have hval : (0.202 : ℝ) ≤ 1 / (0.0387 + 0.0903 + 14.92 + 0.674) +
      0.26 * ((1 : ℝ) + -((43.5 / 57 : ℝ)) ^ 2 / 4) ^ 4 := by norm_num
  linarith

lemma S1_500_390_ub : sensitivity_A1 500 390 ≤ 0.222 := by
  have hsplit : Real.exp (2.652 : ℝ) = Real.exp 2 * Real.exp 0.652 := by
    rw [← Real.exp_add]
    norm_num
  have h652 : ((1 : ℝ) + 0.652 / 4) ^ 4 ≤ Real.exp (0.652 : ℝ) :=
    quartic_le_exp (by norm_num)
  have h2652 : (13.51 : ℝ) ≤ Real.exp (2.652 : ℝ) := by
    rw [hsplit]
    nlinarith [exp_two_lb, h652, Real.exp_pos 2]
  have hmono : Real.exp (2.652 : ℝ) ≤ Real.exp (-14.9 * (1.104 - (500 : ℝ) / 390)) :=
    Real.exp_le_exp.mpr (by norm_num)
  have halpha := alpha_A1_le_third 500 390 13.51 (le_trans h2652 hmono) (by norm_num)
  have hargb : ((390 : ℝ) - lambda_beta_A1 500) / beta_bandwidth_A1 500 = 43.5 / 57 := by
    unfold lambda_beta_A1 beta_bandwidth_A1
    norm_num
  have hexp : Real.exp (-(((390 : ℝ) - lambda_beta_A1 500) / beta_bandwidth_A1 500) ^ 2) ≤
      (1 / (1 - -((43.5 / 57 : ℝ)) ^ 2 / 4)) ^ 4 := by
    rw [hargb]
    exact exp_le_quartic (by norm_num)
  have hbeta := beta_A1_le 500 390 _ hexp
  unfold sensitivity_A1
  have hval : (1 : ℝ) / (13.51 + 0.674) +
      0.26 * (1 / (1 - -((43.5 / 57 : ℝ)) ^ 2 / 4)) ^ 4 ≤ 0.222 := by norm_num
  linarith

lemma S2_500_330_ub : sensitivity_A2 500 330 ≤ 0.207 := by
  have hsplit : Real.exp (4.177 : ℝ) = Real.exp 4 * Real.exp 0.177 := by
    rw [← Real.exp_add]
    norm_num
  have h177 : (1.177 : ℝ) ≤ Real.exp (0.177 : ℝ) := by
    have := one_add_le_exp (0.177 : ℝ)
    linarith
  have h4177 : (64.26 : ℝ) ≤ Real.exp (4.177 : ℝ) := by
    rw [hsplit]
    nlinarith [exp_four_lb, h177, Real.exp_pos 4]
  have hmono : Real.exp (4.177 : ℝ) ≤ Real.exp (-10.37 * (1.1123 - (500 : ℝ) / 330)) :=
    Real.exp_le_exp.mpr (by norm_num)
  have halpha := alpha_A2_le_third 500 330 64.26 (le_trans h4177 hmono) (by norm_num)
  have hargb : ((330 : ℝ) - lambda_beta_A2 500) / beta_bandwidth_A2 500 = -30.2 / 52.5 := by
    unfold lambda_beta_A2 beta_bandwidth_A2
    norm_num
  have hexp : Real.exp (-(((330 : ℝ) - lambda_beta_A2 500) / beta_bandwidth_A2 500) ^ 2) ≤
      (1 / (1 - -((-30.2 / 52.5 : ℝ)) ^ 2 / 4)) ^ 4 := by
    rw [hargb]
    exact exp_le_quartic (by norm_num)
  have hbeta := beta_A2_le 500 330 _ hexp
  unfold sensitivity_A2
  have hval : (1 : ℝ) / (64.26 + 0.5343) +
      0.26 * (1 / (1 - -((-30.2 / 52.5 : ℝ)) ^ 2 / 4)) ^ 4 ≤ 0.207 := by norm_num
  linarith

lemma S2_500_390_lb : (0.336 : ℝ) ≤ sensitivity_A2 500 390 := by
  have ha2 := a2_500_bounds
  have hpk := A2_peak_500_bounds
  have hd : a2 500 - (500 : ℝ) / 390 ≤ -0.38 := by nlinarith [ha2.2]
  have harg1 : A2_peak 500 * (a2 500 - (500 : ℝ) / 390) ≤ -23.82 := by
    have hprod : 0 ≤ (A2_peak 500 - 62.7) * (-(a2 500 - (500 : ℝ) / 390)) :=
      mul_nonneg (by linarith [hpk.1]) (by linarith [hd])
    nlinarith [hprod, hd, hpk.1]
  have hc1 : Real.exp (A2_peak 500 * (a2 500 - (500 : ℝ) / 390)) ≤ 0.0403 := by
    calc Real.exp (A2_peak 500 * (a2 500 - (500 : ℝ) / 390)) ≤ Real.exp (-23.82) :=
          Real.exp_le_exp.mpr harg1
      _ ≤ 1 / (1 - (-23.82)) := exp_le_one_div (by norm_num)
      _ ≤ 0.0403 := by norm_num
  have hc2 : Real.exp (20.85 * (0.9101 - (500 : ℝ) / 390)) ≤ 0.1143 := by
    calc Real.exp (20.85 * (0.9101 - (500 : ℝ) / 390)) ≤ Real.exp (-7.755) :=
          Real.exp_le_exp.mpr (by norm_num)
      _ ≤ 1 / (1 - (-7.755)) := exp_le_one_div (by norm_num)
      _ ≤ 0.1143 := by norm_num
  have hsplit : Real.exp (1.761 : ℝ) = Real.exp 2 * Real.exp (-0.239) := by
    rw [← Real.exp_add]
    norm_num
  have hneg : Real.exp (-0.239 : ℝ) ≤ 1 / 1.239 := by
    calc Real.exp (-0.239 : ℝ) ≤ 1 / (1 - (-0.239)) := exp_le_one_div (by norm_num)
      _ ≤ 1 / 1.239 := by norm_num
  have h1761 : Real.exp (1.761 : ℝ) ≤ 5.964 := by
    rw [hsplit]
    nlinarith [exp_two_ub, hneg, Real.exp_pos 2, Real.exp_pos (-0.239 : ℝ), exp_two_lb]
  have hc3 : Real.exp (-10.37 * (1.1123 - (500 : ℝ) / 390)) ≤ 5.964 := by
    calc Real.exp (-10.37 * (1.1123 - (500 : ℝ) / 390)) ≤ Real.exp (1.761 : ℝ) :=
          Real.exp_le_exp.mpr (by norm_num)
      _ ≤ 5.964 := h1761
  have halpha := alpha_A2_ge 500 390 0.0403 0.1143 5.964 hc1 hc2 hc3
  have hargb : ((390 : ℝ) - lambda_beta_A2 500) / beta_bandwidth_A2 500 = 29.8 / 52.5 := by
    unfold lambda_beta_A2 beta_bandwidth_A2
    norm_num
  have hexp : ((1 : ℝ) + -((29.8 / 52.5 : ℝ)) ^ 2 / 4) ^ 4 ≤
      Real.exp (-(((390 : ℝ) - lambda_beta_A2 500) / beta_bandwidth_A2 500) ^ 2) := by
    rw [hargb]
    exact quartic_le_exp (by norm_num)
  have hbeta := beta_A2_ge 500 390 _ hexp
  unfold sensitivity_A2
  have hval : (0.336 : ℝ) ≤ 1 / (0.0403 + 0.1143 + 5.964 + 0.5343) +
      0.26 * ((1 : ℝ) + -((29.8 / 52.5 : ℝ)) ^ 2 / 4) ^ 4 := by norm_num
  linarith

lemma S1_500_500_lb : (0.648 : ℝ) ≤ sensitivity_A1 500 500 := by
  have ha1 := (a1_bounds 500 (by norm_num)).2
  have hc1 : Real.exp (69.7 * (a1 500 - (500 : ℝ) / 500)) ≤ 0.1614 := by
    calc Real.exp (69.7 * (a1 500 - (500 : ℝ) / 500)) ≤ Real.exp (-5.199) :=
          Real.exp_le_exp.mpr (by nlinarith)
      _ ≤ 1 / (1 - (-5.199)) := exp_le_one_div (by norm_num)
      _ ≤ 0.1614 := by norm_num
  have hc2 : Real.exp (28 * (0.922 - (500 : ℝ) / 500)) ≤ 0.3141 := by
    calc Real.exp (28 * (0.922 - (500 : ℝ) / 500)) ≤ Real.exp (-2.184) :=
          Real.exp_le_exp.mpr (by norm_num)
      _ ≤ 1 / (1 - (-2.184)) := exp_le_one_div (by norm_num)
      _ ≤ 0.3141 := by norm_num
  have hc3 : Real.exp (-14.9 * (1.104 - (500 : ℝ) / 500)) ≤ 0.3923 := by
    calc Real.exp (-14.9 * (1.104 - (500 : ℝ) / 500)) ≤ Real.exp (-1.5496) :=
          Real.exp_le_exp.mpr (by norm_num)
      _ ≤ 1 / (1 - (-1.5496)) := exp_le_one_div (by norm_num)
      _ ≤ 0.3923 := by norm_num
  have halpha := alpha_A1_ge 500 500 0.1614 0.3141 0.3923 hc1 hc2 hc3
  have hb := (beta_A1_pos 500 500).le
  unfold sensitivity_A1
  have hval : (0.648 : ℝ) ≤ 1 / (0.1614 + 0.3141 + 0.3923 + 0.674) := by norm_num
  linarith

lemma S1_500_400_ub : sensitivity_A1 500 400 ≤ 0.399 := by
  have harith : (3.1754 : ℝ) = 1 + -14.9 * (1.104 - (500 : ℝ) / 400) := by norm_num
  have hT3 : (3.1754 : ℝ) ≤ Real.exp (-14.9 * (1.104 - (500 : ℝ) / 400)) := by
    rw [harith]
    exact one_add_le_exp _
  have halpha := alpha_A1_le_third 500 400 3.1754 hT3 (by norm_num)
  have hargb : ((400 : ℝ) - lambda_beta_A1 500) / beta_bandwidth_A1 500 = 53.5 / 57 := by
    unfold lambda_beta_A1 beta_bandwidth_A1
    norm_num
  have hexp : Real.exp (-(((400 : ℝ) - lambda_beta_A1 500) / beta_bandwidth_A1 500) ^ 2) ≤
      1 / (1 - -((53.5 / 57 : ℝ)) ^ 2) := by
    rw [hargb]
    exact exp_le_one_div (by norm_num)
  have hbeta := beta_A1_le 500 400 _ hexp
  unfold sensitivity_A1
  have hval : (1 : ℝ) / (3.1754 + 0.674) +
      0.26 * (1 / (1 - -((53.5 / 57 : ℝ)) ^ 2)) ≤ 0.399 := by norm_num
  linarith

lemma S1_500_600_ub : sensitivity_A1 500 600 ≤ 0.217 := by
  have ha1 := (a1_bounds 500 (by norm_num)).1
  have harg : (4.217 : ℝ) ≤ 1 + 69.7 * (a1 500 - (500 : ℝ) / 600) := by nlinarith
  have hT1 : (4.217 : ℝ) ≤ Real.exp (69.7 * (a1 500 - (500 : ℝ) / 600)) :=
    le_trans harg (one_add_le_exp _)
  have halpha := alpha_A1_le_first 500 600 4.217 hT1 (by norm_num)
  have hargb : ((600 : ℝ) - lambda_beta_A1 500) / beta_bandwidth_A1 500 = 253.5 / 57 := by
    unfold lambda_beta_A1 beta_bandwidth_A1
    norm_num
  have hexp : Real.exp (-(((600 : ℝ) - lambda_beta_A1 500) / beta_bandwidth_A1 500) ^ 2) ≤
      1 / (1 - -((253.5 / 57 : ℝ)) ^ 2) := by
    rw [hargb]
    exact exp_le_one_div (by norm_num)
  have hbeta := beta_A1_le 500 600 _ hexp
  unfold sensitivity_A1
  have hval : (1 : ℝ) / (4.217 + 0.674) +
      0.26 * (1 / (1 - -((253.5 / 57 : ℝ)) ^ 2)) ≤ 0.217 := by norm_num
  linarith

lemma S1_560_710_ub : sensitivity_A1 560 710 ≤ 0.135 := by
  have ha1 := (a1_bounds 560 (by norm_num)).1
  have harg : (7.326 : ℝ) ≤ 1 + 69.7 * (a1 560 - (560 : ℝ) / 710) := by nlinarith
  have hT1 : (7.326 : ℝ) ≤ Real.exp (69.7 * (a1 560 - (560 : ℝ) / 710)) :=
    le_trans harg (one_add_le_exp _)
  have halpha := alpha_A1_le_first 560 710 7.326 hT1 (by norm_num)
  have hargb : ((710 : ℝ) - lambda_beta_A1 560) / beta_bandwidth_A1 560 = 344.6 / 68.7 := by
    unfold lambda_beta_A1 beta_bandwidth_A1
    norm_num
  have hexp : Real.exp (-(((710 : ℝ) - lambda_beta_A1 560) / beta_bandwidth_A1 560) ^ 2) ≤
      1 / (1 - -((344.6 / 68.7 : ℝ)) ^ 2) := by
    rw [hargb]
    exact exp_le_one_div (by norm_num)
  have hbeta := beta_A1_le 560 710 _ hexp
  unfold sensitivity_A1
  have hval : (1 : ℝ) / (7.326 + 0.674) +
      0.26 * (1 / (1 - -((344.6 / 68.7 : ℝ)) ^ 2)) ≤ 0.135 := by norm_num
  linarith

lemma S1_560_400_lb : (0.194 : ℝ) ≤ sensitivity_A1 560 400 := by
  have ha := alpha_A1_pos 560 400
  have hargb : ((400 : ℝ) - lambda_beta_A1 560) / beta_bandwidth_A1 560 = 34.6 / 68.7 := by
    unfold lambda_beta_A1 beta_bandwidth_A1
    norm_num
  have hexp : (1 : ℝ) + -((34.6 / 68.7 : ℝ)) ^ 2 ≤
      Real.exp (-(((400 : ℝ) - lambda_beta_A1 560) / beta_bandwidth_A1 560) ^ 2) := by
    rw [hargb]
    exact one_add_le_exp _
  have hbeta := beta_A1_ge 560 400 _ hexp
  unfold sensitivity_A1
  have hval : (0.194 : ℝ) ≤ 0.26 * ((1 : ℝ) + -((34.6 / 68.7 : ℝ)) ^ 2) := by norm_num
  linarith

/-! ### Claim theorems: structural claims -/

/-- C3: the A1 branch of the code computes exactly the closed-form steps the
spec states: the shape parameter, beta-band position and bandwidth regressions,
the four-term exponential-sum-reciprocal alpha band in `x = lambda_max/w`, the
beta band as a Gaussian in wavelength, and their sum `S1 = alpha + beta`. -/
theorem C3_A1_branch_matches_spec (lambda_max w : ℝ) :
    a1 lambda_max = specA1Shape lambda_max ∧
    lambda_beta_A1 lambda_max = specLambdaBetaA1 lambda_max ∧
    beta_bandwidth_A1 lambda_max = specBetaBandwidthA1 lambda_max ∧
    alpha_A1 lambda_max w = specAlphaBandA1 lambda_max w ∧
    beta_A1 lambda_max w = specBetaBandA1 lambda_max w ∧
    sensitivity_A1 lambda_max w = specS1 lambda_max w :=
  ⟨rfl, rfl, rfl, rfl, rfl, rfl⟩

/-- C5: at the boundary proportions the blend degenerates exactly: with
`A1_proportion = 100` the evaluator returns the normalized pure-A1 template
(no A2 contribution), and with `A1_proportion = 0` the normalized pure-A2
template (no A1 contribution). -/
theorem C5_boundary_reduction (W : List ℝ) (lambda_max : ℝ) :
    govardovskii_template W lambda_max 100 =
      (W, normalize (W.map (sensitivity_A1 lambda_max))) ∧
    govardovskii_template W lambda_max 0 =
      (W, normalize (W.map (sensitivity_A2 lambda_max))) := by
  constructor
  · unfold govardovskii_template
    rw [show total_sensitivity lambda_max 100 = sensitivity_A1 lambda_max from
      funext (total_at_100 lambda_max)]
  · unfold govardovskii_template
    rw [show total_sensitivity lambda_max 0 = sensitivity_A2 lambda_max from
      funext (total_at_0 lambda_max)]

/-- C9: the evaluator is deterministic: two calls with identical inputs give
identical outputs; the embedding is a pure function of its three arguments,
mirroring the source, which reads and writes no state outside its locals. -/
theorem C9_deterministic (W1 W2 : List ℝ) (lm1 lm2 p1 p2 : ℝ)
    (hW : W1 = W2) (hlm : lm1 = lm2) (hp : p1 = p2) :
    govardovskii_template W1 lm1 p1 = govardovskii_template W2 lm2 p2 := by
  rw [hW, hlm, hp]

/-- C9 witness: two calls at the concrete inputs `([400,500], 525, 80)`. -/
theorem C9_deterministic_witness :
    govardovskii_template [400, 500] 525 80 = govardovskii_template [400, 500] 525 80 :=
  C9_deterministic [400, 500] [400, 500] 525 525 80 80 rfl rfl rfl

/-- C10: the evaluator does not modify its wavelength input: the first
component of the result is the input list itself, and the sensitivity curve
has the same length as the input. -/
theorem C10_frame (W : List ℝ) (lambda_max p : ℝ) :
    (govardovskii_template W lambda_max p).1 = W ∧
    (govardovskii_template W lambda_max p).2.length = W.length := by
  refine ⟨rfl, ?_⟩
  unfold govardovskii_template normalize
  simp

/-- C7 counterexample: with two peak wavelengths but a single proportion, the
renderer does not raise; `zip` silently truncates, and exactly one curve is
produced instead of two. -/
theorem C7_mismatched_lengths_cex :
    (plot_visual_pigments (300, 800) [400, 500] (some [100])).length = 1 := by
  unfold plot_visual_pigments
  simp

/-- C7 amended: with explicit proportion lists, the renderer silently draws
`min` of the two lengths many curves; mismatched lengths are truncated by
`zip`, and no error is raised. -/
theorem C7_zip_truncates (r : ℝ × ℝ) (lambda_maxs props : List ℝ) :
    (plot_visual_pigments r lambda_maxs (some props)).length =
      min lambda_maxs.length props.length := by
  unfold plot_visual_pigments
  simp

/-- C6 counterexample: the concrete call with non-positive `lambda_max = -100`
is not rejected: it silently returns a normally-normalized curve (the single
value normalizes to 1), showing no input validation exists. -/
theorem C6_no_validation_cex :
    govardovskii_template [500] (-100) 50 = ([500], [1]) := by
  apply template_singleton
  exact (total_sensitivity_50_pos (-100) 500).ne.symm

/-- C6 amended: the code performs no input validation: for every non-positive
`lambda_max` the call goes through and returns a normally-normalized curve
(for a singleton wavelength array, the value 1) instead of an InvalidInput
error. -/
theorem C6_nonpositive_lambda_not_rejected (lambda_max : ℝ) (_h : lambda_max ≤ 0) :
    govardovskii_template [500] lambda_max 50 = ([500], [1]) := by
  apply template_singleton
  exact (total_sensitivity_50_pos lambda_max 500).ne.symm

/-- C6 witness: the amended theorem applied at `lambda_max = -50`. -/
theorem C6_nonpositive_lambda_not_rejected_witness :
    govardovskii_template [500] (-50) 50 = ([500], [1]) :=
  C6_nonpositive_lambda_not_rejected (-50) (by norm_num)

/-- C8: degenerate normalization: when the maximum of the combined curve is 0,
the code still divides by it with no guard and returns a full curve rather
than raising; in the real-valued embedding the unguarded division yields the
junk value 0 everywhere (the float semantics of numpy renders the same unguarded
division as non-finite values; neither raises before the division). -/
theorem C8_degenerate_normalization (W : List ℝ) (lambda_max p : ℝ)
    (h : npMax (W.map (total_sensitivity lambda_max p)) = 0) :
    (govardovskii_template W lambda_max p).2 = W.map (fun _ => 0) := by
  unfold govardovskii_template normalize
  rw [h]
  simp only [List.map_map, Function.comp, div_zero]
  rfl

/-- C1: whenever the combined curve has a positive maximum, the returned curve
has maximum exactly 1 and every value is at most 1 (hence at most 1 + eps). -/
theorem C1_normalized_invariant (W : List ℝ) (lambda_max p : ℝ)
    (hpos : 0 < npMax (W.map (total_sensitivity lambda_max p))) :
    npMax (govardovskii_template W lambda_max p).2 = 1 ∧
    ∀ y ∈ (govardovskii_template W lambda_max p).2, y ≤ 1 := by
  constructor
  · exact npMax_normalize hpos
  · exact normalize_le_one hpos

/-- C1 witness: at wavelengths `[500]`, `lambda_max = 500`, proportion 100 the
positivity hypothesis holds and the normalized maximum is 1. -/
theorem C1_normalized_invariant_witness :
    npMax (govardovskii_template [500] 500 100).2 = 1 :=
  (C1_normalized_invariant [500] 500 100
    (by
      simp only [List.map, npMax_singleton]
      rw [total_at_100]
      exact sensitivity_A1_pos 500 500)).1

/-- C2 counterexample: at wavelengths `[330, 390]`, `lambda_max = 500` and
weight `w = 1/2`, combining the separately normalized endpoint curves as
`w*curve100 + (1-w)*curve0` does not reproduce the curve evaluated directly at
proportion `100*w`: the endpoint curves are each normalized by their own
maximum, which sits at wavelength 330 for the A1 curve but at 390 for the A2
curve and the blended curve. -/
theorem C2_blend_normalized_cex :
    List.zipWith (fun u v => (1 / 2 : ℝ) * u + (1 - 1 / 2) * v)
      (govardovskii_template [330, 390] 500 100).2
      (govardovskii_template [330, 390] 500 0).2 ≠
      (govardovskii_template [330, 390] 500 (100 * (1 / 2))).2 := by
  have hA := S1_500_330_lb
  have hB := S1_500_330_ub
  have hC := S1_500_390_lb
  have hD := S1_500_390_ub
  have hE := S2_500_330_ub
  have hF := S2_500_390_lb
  have hS2bpos := sensitivity_A2_pos 500 390
  intro hEq
  have h1 := congrArg (fun l => l.getD 1 0) hEq
  rw [template_pair, template_pair, template_pair] at h1
  rw [show (100 : ℝ) * (1 / 2) = 50 from by norm_num] at h1
  simp only [total_at_100, total_at_0, total_at_50, List.zipWith_cons_cons,
    List.zipWith_nil, List.getD_cons_succ, List.getD_cons_zero] at h1
  rw [max_eq_left (by linarith : sensitivity_A1 500 390 ≤ sensitivity_A1 500 330),
      max_eq_right (by linarith : sensitivity_A2 500 330 ≤ sensitivity_A2 500 390),
      max_eq_right (by linarith :
        (1 / 2 : ℝ) * sensitivity_A1 500 330 + (1 / 2) * sensitivity_A2 500 330 ≤
          (1 / 2) * sensitivity_A1 500 390 + (1 / 2) * sensitivity_A2 500 390)] at h1
  have htb : (0 : ℝ) <
      (1 / 2) * sensitivity_A1 500 390 + (1 / 2) * sensitivity_A2 500 390 := by
    linarith
  rw [div_self hS2bpos.ne.symm, div_self htb.ne.symm] at h1
  have hr : sensitivity_A1 500 390 / sensitivity_A1 500 330 < 1 :=
    (div_lt_one (by linarith)).mpr (by linarith)
  linarith

/-- C2 amended: the blend step is an exact convex combination before
normalization: the unnormalized combined curve at proportion `100*w` equals
`w` times the unnormalized pure-A1 curve plus `1-w` times the unnormalized
pure-A2 curve, elementwise, for every weight.  After the per-curve
normalization the recombination identity fails (see the counterexample). -/
theorem C2_blend_convex_prenormalization (W : List ℝ) (lambda_max wgt : ℝ) :
    W.map (total_sensitivity lambda_max (100 * wgt)) =
      List.zipWith (fun u v => wgt * u + (1 - wgt) * v)
        (W.map (total_sensitivity lambda_max 100))
        (W.map (total_sensitivity lambda_max 0)) := by
  induction W with
  | nil => rfl
  | cons x xs ih =>
    simp only [List.map_cons, List.zipWith_cons_cons]
    rw [ih]
    congr 1
    unfold total_sensitivity
    ring

/-- C4 counterexample: at wavelengths `[400, 710]` with `lambda_max = 560`
(within (300,800)) and proportion 100, the wavelength sample nearest
`lambda_max` is 710, yet the returned curve is strictly smaller at 710 than at
400: the maximum does not occur at the nearest sample (the beta band at short
wavelengths dominates the steep long-wavelength alpha falloff). -/
theorem C4_not_nearest_cex :
    |(710 : ℝ) - 560| < |(400 : ℝ) - 560| ∧
    (govardovskii_template [400, 710] 560 100).2.getD 1 0 <
      (govardovskii_template [400, 710] 560 100).2.getD 0 0 := by
  constructor
  · rw [show ((710 : ℝ) - 560) = 150 from by norm_num,
        show ((400 : ℝ) - 560) = -160 from by norm_num, abs_neg,
        abs_of_nonneg (by norm_num : (0 : ℝ) ≤ 150),
        abs_of_nonneg (by norm_num : (0 : ℝ) ≤ 160)]
    norm_num
  · have hu := S1_560_710_ub
    have hl := S1_560_400_lb
    rw [template_pair]
    simp only [total_at_100, List.getD_cons_zero, List.getD_cons_succ]
    rw [max_eq_left (by linarith : sensitivity_A1 560 710 ≤ sensitivity_A1 560 400)]
    have hpos : (0 : ℝ) < sensitivity_A1 560 400 := by linarith
    rw [div_self hpos.ne.symm]
    exact (div_lt_one hpos).mpr (by linarith)

/-- C4 amended: with proportion 100 the normalized curve of every non-empty
wavelength array has maximum exactly 1; and at the cited example
`govardovskii_template [400,500,600] 500 100` the curve value at wavelength
500 (the sample at `lambda_max`) equals 1 exactly.  The further general claim
that the maximum always occurs at the sample nearest `lambda_max` is refuted
by the counterexample. -/
theorem C4_peak_normalized (W : List ℝ) (lambda_max : ℝ) (hW : W ≠ []) :
    npMax (govardovskii_template W lambda_max 100).2 = 1 ∧
    (govardovskii_template [400, 500, 600] 500 100).2.getD 1 0 = 1 := by
  constructor
  · apply npMax_normalize
    obtain ⟨x, xs, rfl⟩ := List.exists_cons_of_ne_nil hW
    rw [List.map_cons]
    have hx : 0 < total_sensitivity lambda_max 100 x := by
      rw [total_at_100]
      exact sensitivity_A1_pos lambda_max x
    exact lt_of_lt_of_le hx (head_le_npMax _ _)
  · have h4 := S1_500_400_ub
    have h5 := S1_500_500_lb
    have h6 := S1_500_600_ub
    rw [template_triple]
    simp only [total_at_100, List.getD_cons_zero, List.getD_cons_succ]
    rw [max_eq_right (by linarith : sensitivity_A1 500 400 ≤ sensitivity_A1 500 500),
        max_eq_left (by linarith : sensitivity_A1 500 600 ≤ sensitivity_A1 500 500)]
    have hpos : (0 : ℝ) < sensitivity_A1 500 500 := by linarith
    exact div_self hpos.ne.symm

/-- C4 witness: the amended theorem applied at the example input itself. -/
theorem C4_peak_normalized_witness :
    npMax (govardovskii_template [400, 500, 600] 500 100).2 = 1 :=
  (C4_peak_normalized [400, 500, 600] 500 (by simp)).1

/-- C8 witness: the degenerate case is reachable: at the single wavelength 330
with `lambda_max = 500` there is an (out-of-range) proportion making the
combined sensitivity exactly zero, so the maximum is zero and the unguarded
division returns the junk curve. -/
theorem C8_degenerate_normalization_witness :
    (govardovskii_template [330] 500
        (100 * sensitivity_A2 500 330 /
          (sensitivity_A2 500 330 - sensitivity_A1 500 330))).2 = [0] := by
  have hA := S1_500_330_lb
  have hE := S2_500_330_ub
  have hne : sensitivity_A2 500 330 - sensitivity_A1 500 330 ≠ 0 := by
    intro hcontra
    nlinarith
  have h0 : total_sensitivity 500
      (100 * sensitivity_A2 500 330 / (sensitivity_A2 500 330 - sensitivity_A1 500 330))
      330 = 0 := by
    unfold total_sensitivity
    field_simp
    ring
  have hmax : npMax ([330].map (total_sensitivity 500
      (100 * sensitivity_A2 500 330 /
        (sensitivity_A2 500 330 - sensitivity_A1 500 330)))) = 0 := by
    rw [List.map_singleton, npMax_singleton]
    exact h0
  have hres := C8_degenerate_normalization [330] 500
    (100 * sensitivity_A2 500 330 / (sensitivity_A2 500 330 - sensitivity_A1 500 330)) hmax
  rw [hres]
  rfl

end Govardovskii
